import Mathlib

/-!
Shallow embedding of the `pii_scanner` core (src/pii_scanner/core/anonymizer.py,
models.py, scanner.py).  Python strings are modelled as `List Char`; Python
`float` scores and thresholds are modelled as `ℚ`; Python `int` as `Int`;
raised exceptions as `Except String`.  Wall-clock fields (timestamps,
processing_time_ms) are omitted: they carry no logical content.
-/

namespace PiiScanner

/-- Characters of a string literal, used to write Python string constants. -/
def chars (s : String) : List Char := s.data

/-- ASCII whitespace as recognised by Python `str.split()` / `str.strip()`. -/
def isPySpace (c : Char) : Bool :=
  c == ' ' || c == '\t' || c == '\n' || c == '\r' || c == '\x0b' || c == '\x0c'

/-- Python `str.strip()`: drop whitespace from both ends. -/
def pyStrip (s : List Char) : List Char :=
  ((s.dropWhile isPySpace).reverse.dropWhile isPySpace).reverse

/-- One step (from the right) of whitespace splitting: the accumulator holds the
words found so far, with the word currently being built at the head. -/
def splitWsAux (c : Char) (acc : List (List Char)) : List (List Char) :=
  if isPySpace c then
    match acc with
    | [] => []
    | [] :: ws => [] :: ws
    | (a :: w) :: ws => [] :: (a :: w) :: ws
  else
    match acc with
    | [] => [[c]]
    | w :: ws => (c :: w) :: ws

/-- Python `str.split()` with no separator: split on whitespace runs, never
producing empty parts. -/
def splitWs (s : List Char) : List (List Char) :=
  match s.foldr splitWsAux [] with
  | [] :: ws => ws
  | ws => ws

/-- Split a list at the first occurrence of `sep` (Python `s.split(sep, 1)`
when `sep` occurs; `none` models `sep not in s`). -/
def splitOnFirst (sep : List Char) (s : List Char) : Option (List Char × List Char) :=
  if sep.isPrefixOf s then some ([], s.drop sep.length)
  else
    match s with
    | [] => none
    | c :: cs => (splitOnFirst sep cs).map (fun p => (c :: p.1, p.2))

/-- `PIIAnonymizer._mask_text`: generic text masking.  Python's
`'*' * (len(text) - show_chars * 2)` is empty for a negative count, which
`Nat` subtraction reproduces. -/
def mask_text (text : List Char) (show_chars : Nat) : List Char :=
  if text.length ≤ show_chars then List.replicate text.length '*'
  else
    text.take show_chars ++ List.replicate (text.length - show_chars * 2) '*' ++
      text.drop (text.length - show_chars)

/-- `PIIAnonymizer._anonymize_generic`. -/
def anonymize_generic (text : List Char) : List Char :=
  mask_text text 2

/-- `PIIAnonymizer._anonymize_email`. -/
def anonymize_email (email : List Char) : List Char :=
  match splitOnFirst (chars "@") email with
  | none => mask_text email 2
  | some (loc, domain) =>
    let anonymized_local :=
      if loc.length ≤ 2 then List.replicate loc.length '*'
      else loc.take 2 ++ List.replicate (loc.length - 2) '*'
    anonymized_local ++ chars "@" ++ domain

/-- `PIIAnonymizer._anonymize_phone` (`re.sub(r'\D', '', phone)` keeps digits). -/
def anonymize_phone (phone : List Char) : List Char :=
  let digits := phone.filter Char.isDigit
  if 4 ≤ digits.length then chars "***-***-" ++ digits.drop (digits.length - 4)
  else chars "***-***-****"

/-- `PIIAnonymizer._anonymize_ssn`. -/
def anonymize_ssn (ssn : List Char) : List Char :=
  let digits := ssn.filter Char.isDigit
  if 4 ≤ digits.length then chars "***-**-" ++ digits.drop (digits.length - 4)
  else chars "***-**-****"

/-- `PIIAnonymizer._anonymize_credit_card`. -/
def anonymize_credit_card (cc : List Char) : List Char :=
  let digits := cc.filter Char.isDigit
  if 4 ≤ digits.length then chars "****-****-****-" ++ digits.drop (digits.length - 4)
  else chars "****-****-****-****"

/-- Loop body of `_anonymize_person`: a non-empty part keeps its first
character followed by `***`; an empty part becomes a bare `***`. -/
def maskNamePart (part : List Char) : List Char :=
  match part with
  | [] => chars "***"
  | c :: _ => c :: chars "***"

/-- `PIIAnonymizer._anonymize_person`: split `name.strip()` on whitespace;
no parts ⇒ `[NAME]`; one part ⇒ first char + `***` (or `[NAME]` if the part
were empty); several parts ⇒ each part masked, joined by single spaces. -/
def anonymize_person (name : List Char) : List Char :=
  match splitWs (pyStrip name) with
  | [] => chars "[NAME]"
  | [p] =>
    match p with
    | [] => chars "[NAME]"
    | c :: _ => c :: chars "***"
  | p :: q :: qs =>
    List.intercalate (chars " ") ((p :: q :: qs).map maskNamePart)

/-- `PIIAnonymizer._anonymize_location`. -/
def anonymize_location (location : List Char) : List Char :=
  if location.length ≤ 4 then chars "[LOCATION]"
  else location.take 2 ++ chars "***" ++ location.drop (location.length - 1)

/-- `PIIAnonymizer._anonymize_ip`. -/
def anonymize_ip (ip : List Char) : List Char :=
  let parts := ip.splitOn '.'
  if parts.length = 4 then parts.headD [] ++ chars ".***.***.***"
  else chars "***.***.***.***"

/-- `PIIAnonymizer._anonymize_driver_license`. -/
def anonymize_driver_license (dl : List Char) : List Char :=
  if 4 ≤ dl.length then chars "***" ++ dl.drop (dl.length - 4)
  else chars "[LICENSE]"

/-- `PIIAnonymizer._anonymize_passport`. -/
def anonymize_passport (passport : List Char) : List Char :=
  if 3 ≤ passport.length then chars "**" ++ passport.drop (passport.length - 3)
  else chars "[PASSPORT]"

/-- `PIIAnonymizer._anonymize_datetime`. -/
def anonymize_datetime (_datetime_str : List Char) : List Char :=
  chars "[DATE]"

/-- `PIIAnonymizer._mask_domain`. -/
def mask_domain (domain : List Char) : List Char :=
  let parts := domain.splitOn '.'
  if 2 ≤ parts.length then
    List.intercalate (chars ".")
      ((parts.dropLast.map fun _ => chars "***") ++ [(parts.getLast?.getD [])])
  else chars "***"

/-- `PIIAnonymizer._anonymize_url`. -/
def anonymize_url (url : List Char) : List Char :=
  match splitOnFirst (chars "://") url with
  | some (protocol, rest) =>
    match splitOnFirst (chars "/") rest with
    | some (domain, _path) => protocol ++ chars "://" ++ mask_domain domain ++ chars "/***"
    | none => protocol ++ chars "://" ++ mask_domain rest
  | none => chars "[URL]"

/-- `PIIAnonymizer._anonymize_crypto`. -/
def anonymize_crypto (crypto : List Char) : List Char :=
  if 8 ≤ crypto.length then crypto.take 4 ++ chars "***" ++ crypto.drop (crypto.length - 4)
  else chars "[CRYPTO]"

/-- `PIIAnonymizer._anonymize_iban`. -/
def anonymize_iban (iban : List Char) : List Char :=
  if 6 ≤ iban.length then iban.take 2 ++ chars "**" ++ iban.drop (iban.length - 4)
  else chars "[IBAN]"

/-- `PIIAnonymizer._anonymize_medical_license`. -/
def anonymize_medical_license (_license_num : List Char) : List Char :=
  chars "[MED_LICENSE]"

/-- `PIIAnonymizer._anonymize_bank_number`. -/
def anonymize_bank_number (bank_num : List Char) : List Char :=
  if 4 ≤ bank_num.length then chars "***" ++ bank_num.drop (bank_num.length - 4)
  else chars "[ACCOUNT]"

/-- `PIIAnonymizer._anonymize_itin`. -/
def anonymize_itin (itin : List Char) : List Char :=
  let digits := itin.filter Char.isDigit
  if 4 ≤ digits.length then chars "9**-**-" ++ digits.drop (digits.length - 4)
  else chars "9**-**-****"

/-- `PIIAnonymizer._anonymize_nrp`. -/
def anonymize_nrp (_nrp : List Char) : List Char :=
  chars "[NRP]"

/-- `PIIAnonymizer.anonymize_entity`: empty input is returned unchanged; the
dispatch table maps the 17 known entity types to their handlers and every other
type to the generic masker.  Every handler is a total function, so the Python
`try/except` fallback to `_anonymize_generic` can never fire and is not
modelled as a separate path. -/
def anonymize_entity (text : List Char) (entity_type : String) : List Char :=
  if text = [] then text
  else
    match entity_type with
    | "EMAIL_ADDRESS" => anonymize_email text
    | "PHONE_NUMBER" => anonymize_phone text
    | "US_SSN" => anonymize_ssn text
    | "CREDIT_CARD" => anonymize_credit_card text
    | "PERSON" => anonymize_person text
    | "LOCATION" => anonymize_location text
    | "IP_ADDRESS" => anonymize_ip text
    | "US_DRIVER_LICENSE" => anonymize_driver_license text
    | "US_PASSPORT" => anonymize_passport text
    | "DATE_TIME" => anonymize_datetime text
    | "URL" => anonymize_url text
    | "CRYPTO" => anonymize_crypto text
    | "IBAN_CODE" => anonymize_iban text
    | "MEDICAL_LICENSE" => anonymize_medical_license text
    | "US_BANK_NUMBER" => anonymize_bank_number text
    | "US_ITIN" => anonymize_itin text
    | "NRP" => anonymize_nrp text
    | _ => anonymize_generic text

/-- `ConfidenceLevel` enum from models.py. -/
inductive ConfidenceLevel where
  | low
  | medium
  | high
deriving DecidableEq, Repr

/-- `PIIMatch` dataclass (models.py).  The `timestamp` field is wall-clock
and is omitted. -/
structure PIIMatch where
  entity_type : String
  text : List Char
  start : Int
  end_ : Int
  confidence : ℚ
  location : List Char
  context : List Char
  anonymized_text : List Char
deriving DecidableEq, Repr

/-- `PIIMatch.confidence_level` property. -/
def PIIMatch.confidence_level (m : PIIMatch) : ConfidenceLevel :=
  if 8 / 10 ≤ m.confidence then ConfidenceLevel.high
  else if 6 / 10 ≤ m.confidence then ConfidenceLevel.medium
  else ConfidenceLevel.low

/-- The `source_info` dict built by `PIIScanner.scan_text`
(`{"type": ..., "length": ..., "confidence_threshold": ...}`). -/
structure SourceInfo where
  kind : String
  length : Nat
  confidence_threshold : ℚ
deriving DecidableEq, Repr

/-- `ScanResult` dataclass (timestamp and processing_time_ms omitted:
wall-clock). -/
structure ScanResult where
  matches_ : List PIIMatch
  total_entities : Nat
  source_info : Option SourceInfo
deriving DecidableEq, Repr

/-- `ScanResult` construction: `__post_init__` overwrites whatever
`total_entities` value was passed with `len(self.matches_)`. -/
def ScanResult.make (matches_ : List PIIMatch) (total_passed : Nat)
    (source_info : Option SourceInfo) : ScanResult :=
  let _ := total_passed
  { matches_ := matches_, total_entities := matches_.length, source_info := source_info }

/-- The loop body of `ScanResult.confidence_distribution`. -/
structure ConfidenceDistribution where
  low : Nat
  medium : Nat
  high : Nat
deriving DecidableEq, Repr

/-- One iteration of the counting loop in `ScanResult.confidence_distribution`. -/
def distributionStep (d : ConfidenceDistribution) (m : PIIMatch) : ConfidenceDistribution :=
  match m.confidence_level with
  | ConfidenceLevel.low => { d with low := d.low + 1 }
  | ConfidenceLevel.medium => { d with medium := d.medium + 1 }
  | ConfidenceLevel.high => { d with high := d.high + 1 }

/-- `ScanResult.confidence_distribution` property. -/
def ScanResult.confidence_distribution (r : ScanResult) : ConfidenceDistribution :=
  r.matches_.foldl distributionStep ⟨0, 0, 0⟩

/-- `ScanOptions` dataclass, as it stands after `__post_init__`
(`entity_types` is then always a concrete list). -/
structure ScanOptions where
  confidence_threshold : ℚ
  entity_types : List String
  include_context : Bool
  context_window : Int
  anonymize_results : Bool
  language : String
deriving DecidableEq, Repr

/-- The default entity-type list substituted by `ScanOptions.__post_init__`
when `entity_types is None`. -/
def defaultEntityTypes : List String :=
  ["EMAIL_ADDRESS", "PHONE_NUMBER", "US_SSN", "CREDIT_CARD", "PERSON"]

/-- `ScanOptions(...)` construction including `__post_init__` validation:
a raised `ValueError` is modelled as `Except.error`.  Note the code checks
`confidence_threshold` against [0, 1] and `context_window` against 0 only;
it never imposes an upper bound on `context_window`. -/
def mkScanOptions (confidence_threshold : ℚ) (entity_types : Option (List String))
    (include_context : Bool) (context_window : Int) (anonymize_results : Bool)
    (language : String) : Except String ScanOptions :=
  if ¬ (0 ≤ confidence_threshold ∧ confidence_threshold ≤ 1) then
    Except.error "confidence_threshold must be between 0.0 and 1.0"
  else if context_window < 0 then
    Except.error "context_window must be non-negative"
  else
    Except.ok
      { confidence_threshold := confidence_threshold
        entity_types := entity_types.getD defaultEntityTypes
        include_context := include_context
        context_window := context_window
        anonymize_results := anonymize_results
        language := language }

/-- `ScanOptions()` with all defaults (0.5, None ⇒ default list, True, 50,
True, "en"). -/
def scanOptionsDefault : ScanOptions :=
  { confidence_threshold := 1 / 2
    entity_types := defaultEntityTypes
    include_context := true
    context_window := 50
    anonymize_results := true
    language := "en" }

/-- One raw detection returned by the external Presidio analyzer
(`RecognizerResult`: entity_type, start, end, score). -/
structure Detection where
  entity_type : String
  start : Int
  end_ : Int
  score : ℚ
deriving DecidableEq, Repr

/-- The scanner's state: the `_initialized` flag and the external analyzer,
which is an opaque collaborator modelled as a function from
(text, language, entities) to either a detection list or a raised error. -/
structure ScannerState where
  initialized : Bool
  analyzer : List Char → String → List String → Except String (List Detection)

/-- `PIIScanner._get_context`: window extraction with whitespace collapsing
(`' '.join(context.split())`) and ellipsis markers. -/
def get_context (text : List Char) (start end_ window : Int) : List Char :=
  let context_start := max 0 (start - window)
  let context_end := min (text.length : Int) (end_ + window)
  let context0 := (text.take context_end.toNat).drop context_start.toNat
  let context1 := List.intercalate (chars " ") (splitWs context0)
  if 0 < context_start ∨ context_end < (text.length : Int) then
    let context2 := if 0 < context_start then chars "..." ++ context1 else context1
    if context_end < (text.length : Int) then context2 ++ chars "..." else context2
  else context1

/-- `PIIScanner._create_pii_match`.  Detection offsets are non-negative
(Presidio contract), so Python's `text[start:end]` is take/drop. -/
def create_pii_match (text : List Char) (result : Detection) (options : ScanOptions) :
    PIIMatch :=
  let pii_text := (text.take result.end_.toNat).drop result.start.toNat
  let context :=
    if options.include_context then
      get_context text result.start result.end_ options.context_window
    else []
  let anonymized_text :=
    if options.anonymize_results then anonymize_entity pii_text result.entity_type
    else []
  { entity_type := result.entity_type
    text := pii_text
    start := result.start
    end_ := result.end_
    confidence := result.score
    location := []
    context := context
    anonymized_text := anonymized_text }

/-- `PIIScanner.scan_text`: readiness check, empty/whitespace short-circuit,
analyzer call, confidence filter, match construction, result assembly.
A raised `ScannerError` is `Except.error`. -/
def scan_text (scanner : ScannerState) (text : List Char)
    (options? : Option ScanOptions) : Except String ScanResult :=
  if ¬ scanner.initialized then Except.error "Scanner not initialized"
  else if text = [] ∨ pyStrip text = [] then Except.ok (ScanResult.make [] 0 none)
  else
    let options := options?.getD scanOptionsDefault
    match scanner.analyzer text options.language options.entity_types with
    | Except.error e => Except.error ("Text scanning failed: " ++ e)
    | Except.ok analyzer_results =>
      let matches_ :=
        (analyzer_results.filter
            (fun result => options.confidence_threshold ≤ result.score)).map
          (fun result => create_pii_match text result options)
      Except.ok
        (ScanResult.make matches_ 0
          (some { kind := "text", length := text.length
                  confidence_threshold := options.confidence_threshold }))

/-- Total-entity count of a scan outcome, 0 for a raised error; used to state
the threshold-monotonicity property. -/
def scanTotal (r : Except String ScanResult) : Nat :=
  match r with
  | Except.ok r => r.total_entities
  | Except.error _ => 0

/-- A concrete detector used in witness statements: always reports one
EMAIL_ADDRESS detection at offsets 0-10 with score 0.85. -/
def witnessAnalyzer : List Char → String → List String → Except String (List Detection) :=
  fun _ _ _ =>
    Except.ok [{ entity_type := "EMAIL_ADDRESS", start := 0, end_ := 10, score := 85 / 100 }]

/-- A concrete always-failing detector used in witness statements. -/
def failingAnalyzer : List Char → String → List String → Except String (List Detection) :=
  fun _ _ _ => Except.error "detector down"

/-- A concrete match with confidence 0.7, used in witness statements. -/
def witnessMatch : PIIMatch :=
  { entity_type := "PERSON", text := chars "Ann", start := 0, end_ := 3
    confidence := 7 / 10, location := [], context := [], anonymized_text := chars "A***" }

/-! ### Helper lemmas -/

/-- In the folded accumulator, every word after the head is non-empty. -/
lemma splitWsAux_tail_ne_nil (s : List Char) :
    ∀ p ∈ (s.foldr splitWsAux []).tail, p ≠ [] := by
  induction s with
  | nil => simp
  | cons c cs ih =>
    intro p hp
    rw [List.foldr_cons] at hp
    generalize hg : cs.foldr splitWsAux [] = acc at hp ih
    by_cases hc : isPySpace c
    · rcases acc with _ | ⟨_ | ⟨a, w⟩, ws⟩
      · simp [splitWsAux, hc] at hp
      · simp only [splitWsAux, hc, if_pos] at hp
        exact ih p hp
      · simp only [splitWsAux, hc, if_pos, List.tail_cons] at hp
        rcases List.mem_cons.mp hp with rfl | hp
        · simp
        · exact ih p hp
    · rcases acc with _ | ⟨w, ws⟩
      · simp [splitWsAux, hc] at hp
      · simp only [splitWsAux, hc, Bool.false_eq_true, if_neg, List.tail_cons,
          not_false_iff] at hp
        exact ih p hp

/-- Python `str.split()` never yields an empty part. -/
lemma splitWs_ne_nil (s : List Char) : ∀ p ∈ splitWs s, p ≠ [] := by
  intro p hp
  unfold splitWs at hp
  have htail := splitWsAux_tail_ne_nil s
  generalize hg : s.foldr splitWsAux [] = acc at hp htail
  rcases acc with _ | ⟨_ | ⟨a, w⟩, ws⟩
  · simp at hp
  · exact htail p hp
  · rcases List.mem_cons.mp hp with rfl | hp
    · simp
    · exact htail p hp

/-- Every character of every part of the folded accumulator is a character of
the folded string. -/
lemma splitWsAux_chars (s : List Char) :
    ∀ p ∈ s.foldr splitWsAux [], ∀ c ∈ p, c ∈ s := by
  induction s with
  | nil => simp
  | cons c cs ih =>
    intro p hp d hd
    rw [List.foldr_cons] at hp
    generalize hg : cs.foldr splitWsAux [] = acc at hp ih
    by_cases hc : isPySpace c
    · rcases acc with _ | ⟨_ | ⟨a, w⟩, ws⟩
      · simp [splitWsAux, hc] at hp
      · simp only [splitWsAux, hc, if_pos] at hp
        exact List.mem_cons_of_mem c (ih p hp d hd)
      · simp only [splitWsAux, hc, if_pos] at hp
        rcases List.mem_cons.mp hp with rfl | hp
        · simp at hd
        · exact List.mem_cons_of_mem c (ih p hp d hd)
    · rcases acc with _ | ⟨w, ws⟩
      · simp only [splitWsAux, hc, Bool.false_eq_true, if_neg,
          not_false_iff] at hp
        rcases List.mem_cons.mp hp with rfl | hp
        · rcases List.mem_cons.mp hd with rfl | hd
          · simp
          · simp at hd
        · simp at hp
      · simp only [splitWsAux, hc, Bool.false_eq_true, if_neg,
          not_false_iff] at hp
        rcases List.mem_cons.mp hp with rfl | hp
        · rcases List.mem_cons.mp hd with rfl | hd
          · simp
          · exact List.mem_cons_of_mem c (ih w (by simp) d hd)
        · exact List.mem_cons_of_mem c (ih p (List.mem_cons_of_mem w hp) d hd)

/-- Characters of split parts come from the split string. -/
lemma splitWs_chars (s : List Char) : ∀ p ∈ splitWs s, ∀ c ∈ p, c ∈ s := by
  intro p hp
  unfold splitWs at hp
  have haux := splitWsAux_chars s
  generalize hg : s.foldr splitWsAux [] = acc at hp haux
  rcases acc with _ | ⟨_ | ⟨a, w⟩, ws⟩
  · simp at hp
  · exact haux p (List.mem_cons_of_mem _ hp)
  · exact haux p hp

/-- `pyStrip` only removes characters: it is a sublist of its input. -/
lemma pyStrip_sublist (s : List Char) : (pyStrip s).Sublist s := by
  unfold pyStrip
  have h1 : (s.dropWhile isPySpace).Sublist s := List.dropWhile_sublist _
  have h2 : ((s.dropWhile isPySpace).reverse.dropWhile isPySpace).Sublist
      (s.dropWhile isPySpace).reverse := List.dropWhile_sublist _
  have h3 := h2.reverse
  rw [List.reverse_reverse] at h3
  exact h3.trans h1

/-- Each loop step of `confidence_distribution` raises the bucket total by 1. -/
lemma distributionStep_sum (d : ConfidenceDistribution) (m : PIIMatch) :
    (distributionStep d m).low + (distributionStep d m).medium +
      (distributionStep d m).high = d.low + d.medium + d.high + 1 := by
  unfold distributionStep
  cases m.confidence_level <;> simp <;> omega

/-- Folding the distribution loop over `ms` adds `ms.length` to the total. -/
lemma foldl_distributionStep_sum (ms : List PIIMatch) :
    ∀ d : ConfidenceDistribution,
      (ms.foldl distributionStep d).low + (ms.foldl distributionStep d).medium +
          (ms.foldl distributionStep d).high =
        d.low + d.medium + d.high + ms.length := by
  induction ms with
  | nil => intro d; simp
  | cons m ms ih =>
    intro d
    rw [List.foldl_cons, ih (distributionStep d m), distributionStep_sum]
    simp [Nat.add_comm, Nat.add_assoc, Nat.add_left_comm]

/-- A stricter filter keeps no more elements. -/
lemma length_filter_mono {α : Type} (l : List α) (p q : α → Bool)
    (h : ∀ a, q a → p a) : (l.filter q).length ≤ (l.filter p).length :=
  (List.monotone_filter_right l h).length_le

/-- Evaluation of `mkScanOptions` on in-range arguments. -/
lemma mkScanOptions_ok_of_valid (ct : ℚ) (ets : Option (List String)) (ic : Bool)
    (cw : Int) (ar : Bool) (lang : String)
    (h0 : 0 ≤ ct) (h1 : ct ≤ 1) (h2 : 0 ≤ cw) :
    mkScanOptions ct ets ic cw ar lang =
      Except.ok
        { confidence_threshold := ct
          entity_types := ets.getD defaultEntityTypes
          include_context := ic
          context_window := cw
          anonymize_results := ar
          language := lang } := by
  unfold mkScanOptions
  rw [if_neg (not_not_intro ⟨h0, h1⟩), if_neg (not_lt.mpr h2)]

/-! ### Claim theorems -/

/-- C1 counterexample: the claim "anonymize_entity(s, t) != s for every
non-empty s" is false.  For the entity type "UNKNOWN" (no specific handler)
the generic masker maps the non-empty string "abcd" to itself:
`"ab" + "*" * (4 - 4) + "cd" = "abcd"`. -/
theorem C1_counterexample :
    anonymize_entity (chars "abcd") "UNKNOWN" = chars "abcd" ∧
      chars "abcd" ≠ ([] : List Char) := by
  exact ⟨by decide, by decide⟩

/-- C1 (amended): `anonymize_entity` is a total function (never raises: every
handler in the dispatch table is total, so the fallback never fires) and
returns the input unchanged whenever the input is empty; but not only then —
under an entity type with no specific handler, every string of length 4 is a
fixed point of the generic masker and is returned unchanged. -/
theorem C1_anonymize_entity_empty_and_length4 :
    (∀ t : String, anonymize_entity [] t = []) ∧
    (∀ a b c d : Char, anonymize_entity [a, b, c, d] "UNKNOWN" = [a, b, c, d]) := by
  constructor
  · intro t; rfl
  · intro a b c d
    show anonymize_generic [a, b, c, d] = [a, b, c, d]
    unfold anonymize_generic mask_text
    rw [if_neg (by simp)]
    simp

/-- C2 counterexample: the claim "entity_types equal to the empty list is
replaced by the default list" is false.  `ScanOptions.__post_init__` replaces
`entity_types` only when it is `None`; an explicitly passed empty list is kept
as the empty list, which differs from the default five-type list. -/
theorem C2_counterexample :
    Except.map ScanOptions.entity_types
        (mkScanOptions (1 / 2) (some []) true 50 true "en") = Except.ok [] ∧
      ([] : List String) ≠ defaultEntityTypes := by
  constructor
  · rw [mkScanOptions_ok_of_valid (1 / 2) (some []) true 50 true "en"
      (by norm_num) (by norm_num) (by norm_num)]
    rfl
  · simp [defaultEntityTypes]

/-- C2 (amended): for in-range arguments, construction succeeds and
`entity_types` is the default five-type list exactly when `None` was passed;
any explicitly passed list — including the empty list — is kept as given. -/
theorem C2_entity_types_default (ct : ℚ) (ets : Option (List String)) (ic : Bool)
    (cw : Int) (ar : Bool) (lang : String)
    (h0 : 0 ≤ ct) (h1 : ct ≤ 1) (h2 : 0 ≤ cw) :
    mkScanOptions ct ets ic cw ar lang =
      Except.ok
        { confidence_threshold := ct
          entity_types := ets.getD defaultEntityTypes
          include_context := ic
          context_window := cw
          anonymize_results := ar
          language := lang } :=
  mkScanOptions_ok_of_valid ct ets ic cw ar lang h0 h1 h2

/-- C2 witness: a concrete in-range construction, with an explicit list kept
as given. -/
theorem C2_entity_types_default_witness :
    mkScanOptions (1 / 2) (some ["PERSON"]) true 50 true "en" =
      Except.ok
        { confidence_threshold := 1 / 2
          entity_types := (some ["PERSON"]).getD defaultEntityTypes
          include_context := true
          context_window := 50
          anonymize_results := true
          language := "en" } :=
  C2_entity_types_default (1 / 2) (some ["PERSON"]) true 50 true "en"
    (by norm_num) (by norm_num) (by norm_num)

/-- C3 counterexample: the claim "construction fails when context_window
exceeds the implementation-chosen maximum (e.g. 1000)" is false: constructing
options with `context_window = 2000` succeeds.  (The standalone
`validate_context_window` helper with its max of 1000 is never invoked by
`ScanOptions`.) -/
theorem C3_counterexample :
    mkScanOptions (1 / 2) none true 2000 true "en" =
      Except.ok
        { confidence_threshold := 1 / 2
          entity_types := defaultEntityTypes
          include_context := true
          context_window := 2000
          anonymize_results := true
          language := "en" } := by
  rw [mkScanOptions_ok_of_valid (1 / 2) none true 2000 true "en"
    (by norm_num) (by norm_num) (by norm_num)]
  rfl

/-- C3 (amended): `ScanOptions` construction fails (raising a validation
error, with no partially constructed options since the whole construction is
rejected) if and only if `confidence_threshold` is outside [0, 1] or
`context_window` is negative; there is no upper bound on `context_window`. -/
theorem C3_validation_iff (ct : ℚ) (ets : Option (List String)) (ic : Bool)
    (cw : Int) (ar : Bool) (lang : String) :
    (∃ e, mkScanOptions ct ets ic cw ar lang = Except.error e) ↔
      (ct < 0 ∨ 1 < ct ∨ cw < 0) := by
  unfold mkScanOptions
  by_cases h1 : 0 ≤ ct ∧ ct ≤ 1
  · rw [if_neg (not_not_intro h1)]
    by_cases h2 : cw < 0
    · rw [if_pos h2]
      constructor
      · intro _; exact Or.inr (Or.inr h2)
      · intro _; exact ⟨_, rfl⟩
    · rw [if_neg h2]
      constructor
      · rintro ⟨e, he⟩; simp at he
      · rintro (h | h | h)
        · exact absurd h (not_lt.mpr h1.1)
        · exact absurd h (not_lt.mpr h1.2)
        · exact absurd h h2
  · rw [if_pos h1]
    constructor
    · intro _
      push_neg at h1
      rcases lt_or_le ct 0 with h | h
      · exact Or.inl h
      · exact Or.inr (Or.inl (h1 h))
    · intro _; exact ⟨_, rfl⟩

/-- C4: scanning empty or whitespace-only text on an initialized scanner
returns an empty `ScanResult` (zero matches, total_entities = 0) without
consulting the detector: the outcome is identical under any two detectors,
including a failing one. -/
theorem C4_whitespace_empty_result
    (a1 a2 : List Char → String → List String → Except String (List Detection))
    (options? : Option ScanOptions) (text : List Char)
    (h : pyStrip text = []) :
    scan_text ⟨true, a1⟩ text options? = Except.ok (ScanResult.make [] 0 none) ∧
      (ScanResult.make [] 0 none).total_entities = 0 ∧
      scan_text ⟨true, a1⟩ text options? = scan_text ⟨true, a2⟩ text options? := by
  unfold scan_text
  simp [h, ScanResult.make]

/-- C4 witness: the two-space text with an always-failing detector. -/
theorem C4_whitespace_empty_result_witness :
    pyStrip (chars "  ") = [] ∧
      scan_text ⟨true, failingAnalyzer⟩ (chars "  ") none =
        Except.ok (ScanResult.make [] 0 none) :=
  ⟨by decide,
    (C4_whitespace_empty_result failingAnalyzer witnessAnalyzer none (chars "  ")
        (by decide)).1⟩

/-- C5: `scan_text` keeps exactly the detections whose score is at least the
confidence threshold, so for a fixed detector, text and type filter, raising
the threshold never increases `total_entities` (equivalently, lowering it
never decreases the count). -/
theorem C5_threshold_monotone (scanner : ScannerState) (text : List Char)
    (o : ScanOptions) (t2 : ℚ) (h : o.confidence_threshold ≤ t2) :
    scanTotal (scan_text scanner text (some { o with confidence_threshold := t2 })) ≤
      scanTotal (scan_text scanner text (some o)) := by
  unfold scan_text scanTotal
  simp only [Option.getD_some]
  split_ifs with h1 h2
  · simp
  · cases hres : scanner.analyzer text o.language o.entity_types with
    | error e => simp
    | ok ds =>
      simp only [ScanResult.make, List.length_map]
      refine length_filter_mono ds _ _ ?_
      intro a ha
      simp only [decide_eq_true_eq] at ha ⊢
      exact le_trans h ha
  · simp

/-- C5 witness: with a detector reporting a single score-0.85 detection,
raising the threshold from the default 0.5 to 0.9 cannot increase the count. -/
theorem C5_threshold_monotone_witness :
    scanOptionsDefault.confidence_threshold ≤ (9 : ℚ) / 10 ∧
      scanTotal
          (scan_text ⟨true, witnessAnalyzer⟩ (chars "john@x.com")
            (some { scanOptionsDefault with confidence_threshold := (9 : ℚ) / 10 })) ≤
        scanTotal
          (scan_text ⟨true, witnessAnalyzer⟩ (chars "john@x.com")
            (some scanOptionsDefault)) :=
  ⟨by norm_num [scanOptionsDefault],
    C5_threshold_monotone ⟨true, witnessAnalyzer⟩ (chars "john@x.com")
      scanOptionsDefault ((9 : ℚ) / 10) (by norm_num [scanOptionsDefault])⟩

/-- C6: generic-fallback masking: a string of length at most 2 is replaced by
that many asterisks; a longer string keeps its first two and last two
characters and carries `len - 4` asterisks in between (none when the length
is 3), so the output always starts with `s[0:2]` and ends with `s[-2:]`. -/
theorem C6_generic_masking (s : List Char) :
    (s.length ≤ 2 → anonymize_generic s = List.replicate s.length '*') ∧
    (2 < s.length →
      anonymize_generic s =
          s.take 2 ++ List.replicate (s.length - 4) '*' ++ s.drop (s.length - 2) ∧
        (anonymize_generic s).take 2 = s.take 2 ∧
        (anonymize_generic s).drop ((anonymize_generic s).length - 2) =
          s.drop (s.length - 2)) := by
  constructor
  · intro h
    unfold anonymize_generic mask_text
    rw [if_pos h]
  · intro h
    have heq : anonymize_generic s =
        s.take 2 ++ List.replicate (s.length - 4) '*' ++ s.drop (s.length - 2) := by
      unfold anonymize_generic mask_text
      rw [if_neg (by omega)]
    have hl : (s.take 2).length = 2 := by
      rw [List.length_take]
      omega
    have hc : (s.drop (s.length - 2)).length = 2 := by
      rw [List.length_drop]
      omega
    refine ⟨heq, ?_, ?_⟩
    · rw [heq, List.append_assoc, List.take_left' hl]
    · rw [heq]
      have hab : (s.take 2 ++ List.replicate (s.length - 4) '*' ++
          s.drop (s.length - 2)).length - 2 =
          (s.take 2 ++ List.replicate (s.length - 4) '*').length := by
        simp only [List.length_append, hl, hc, List.length_replicate]
        omega
      rw [hab, List.drop_left]

/-- C6 witness: the six-character string "abcdef". -/
theorem C6_generic_masking_witness :
    2 < (chars "abcdef").length ∧
      anonymize_generic (chars "abcdef") =
        (chars "abcdef").take 2 ++ List.replicate ((chars "abcdef").length - 4) '*' ++
          (chars "abcdef").drop ((chars "abcdef").length - 2) :=
  ⟨by decide, ((C6_generic_masking (chars "abcdef")).2 (by decide)).1⟩

/-- C7: for a confidence score in [0, 1], the derived level is LOW exactly on
[0, 0.6), MEDIUM exactly on [0.6, 0.8) and HIGH exactly on [0.8, 1]: lower
bounds inclusive, upper bounds exclusive except the top band, which closes at
1 inclusive. -/
theorem C7_confidence_bands (m : PIIMatch)
    (h0 : 0 ≤ m.confidence) (h1 : m.confidence ≤ 1) :
    (m.confidence_level = ConfidenceLevel.low ↔
        0 ≤ m.confidence ∧ m.confidence < 6 / 10) ∧
      (m.confidence_level = ConfidenceLevel.medium ↔
        6 / 10 ≤ m.confidence ∧ m.confidence < 8 / 10) ∧
      (m.confidence_level = ConfidenceLevel.high ↔
        8 / 10 ≤ m.confidence ∧ m.confidence ≤ 1) := by
  unfold PIIMatch.confidence_level
  split_ifs with ha hb
  · refine ⟨?_, ?_, ?_⟩ <;> constructor
    · intro hx; exact absurd hx (by simp)
    · rintro ⟨_, hx⟩; exfalso; linarith
    · intro hx; exact absurd hx (by simp)
    · rintro ⟨_, hx⟩; exfalso; linarith
    · intro _; exact ⟨ha, h1⟩
    · intro _; rfl
  · refine ⟨?_, ?_, ?_⟩ <;> constructor
    · intro hx; exact absurd hx (by simp)
    · rintro ⟨_, hx⟩; exfalso; linarith
    · intro _; exact ⟨hb, not_le.mp ha⟩
    · intro _; rfl
    · intro hx; exact absurd hx (by simp)
    · rintro ⟨hx, _⟩; exact absurd hx ha
  · refine ⟨?_, ?_, ?_⟩ <;> constructor
    · intro _; exact ⟨h0, not_le.mp hb⟩
    · intro _; rfl
    · intro hx; exact absurd hx (by simp)
    · rintro ⟨hx, _⟩; exact absurd hx hb
    · intro hx; exact absurd hx (by simp)
    · rintro ⟨hx, _⟩; exact absurd hx ha

/-- C7 witness: a confidence of 0.7 lies in the MEDIUM band. -/
theorem C7_confidence_bands_witness :
    witnessMatch.confidence_level = ConfidenceLevel.medium ↔
      6 / 10 ≤ witnessMatch.confidence ∧ witnessMatch.confidence < 8 / 10 :=
  (C7_confidence_bands witnessMatch (by norm_num [witnessMatch])
    (by norm_num [witnessMatch])).2.1

/-- C8: after construction, `total_entities` always equals the length of the
match list (whatever value was passed for it), and the three buckets of the
confidence distribution sum to `total_entities`. -/
theorem C8_total_and_distribution (ms : List PIIMatch) (total_passed : Nat)
    (si : Option SourceInfo) :
    (ScanResult.make ms total_passed si).total_entities =
        (ScanResult.make ms total_passed si).matches_.length ∧
      (ScanResult.make ms total_passed si).confidence_distribution.low +
          (ScanResult.make ms total_passed si).confidence_distribution.medium +
          (ScanResult.make ms total_passed si).confidence_distribution.high =
        (ScanResult.make ms total_passed si).total_entities := by
  constructor
  · rfl
  · unfold ScanResult.confidence_distribution ScanResult.make
    simpa using foldl_distributionStep_sum ms ⟨0, 0, 0⟩

/-- C9: with offsets inside the text and a non-negative window, the context is
the slice from `max 0 (start - w)` to `min len (end + w)` with whitespace runs
collapsed to single spaces, prefixed by `...` exactly when the left edge is
positive and suffixed by `...` exactly when the right edge is short of the end
of the text. -/
theorem C9_context_extraction (text : List Char) (start end_ window : Int)
    (h0 : 0 ≤ start) (hse : start ≤ end_) (hel : end_ ≤ (text.length : Int))
    (hw : 0 ≤ window) :
    get_context text start end_ window =
      (if 0 < max 0 (start - window) then chars "..." else []) ++
        List.intercalate (chars " ")
          (splitWs ((text.take (min (text.length : Int) (end_ + window)).toNat).drop
            (max 0 (start - window)).toNat)) ++
        (if min (text.length : Int) (end_ + window) < (text.length : Int) then chars "..."
          else []) := by
  unfold get_context
  split_ifs
  all_goals simp_all

/-- C9 witness: a match at offsets 6-11 of "hello world foo" with window 2 is
truncated at both edges. -/
theorem C9_context_extraction_witness :
    get_context (chars "hello world foo") 6 11 2 =
      (if 0 < max 0 (6 - 2 : Int) then chars "..." else []) ++
        List.intercalate (chars " ")
          (splitWs (((chars "hello world foo").take
              (min ((chars "hello world foo").length : Int) (11 + 2)).toNat).drop
            (max 0 (6 - 2 : Int)).toNat)) ++
        (if min ((chars "hello world foo").length : Int) (11 + 2) <
            ((chars "hello world foo").length : Int) then chars "..."
          else []) :=
  C9_context_extraction (chars "hello world foo") 6 11 2
    (by decide) (by decide) (by decide) (by decide)

/-- C10: PERSON anonymization: if the stripped name splits into no parts the
result is `[NAME]`; otherwise the parts, each replaced by its first character
followed by `***`, are joined by single spaces.  Whitespace splitting never
yields an empty part, so the bare-`***` branch is unreachable and every
output part begins with a character of the original name. -/
theorem C10_person_anonymization (name : List Char) :
    (∀ p ∈ splitWs (pyStrip name), p ≠ [] ∧ p.headD '*' ∈ name) ∧
      (splitWs (pyStrip name) = [] → anonymize_person name = chars "[NAME]") ∧
      (splitWs (pyStrip name) ≠ [] →
        anonymize_person name =
          List.intercalate (chars " ")
            ((splitWs (pyStrip name)).map fun p => p.headD '*' :: chars "***")) := by
  refine ⟨?_, ?_, ?_⟩
  · intro p hp
    have hne : p ≠ [] := splitWs_ne_nil _ p hp
    refine ⟨hne, ?_⟩
    rcases p with _ | ⟨c, w⟩
    · exact absurd rfl hne
    · have hc : c ∈ pyStrip name := splitWs_chars _ _ hp c (by simp)
      exact (pyStrip_sublist name).subset hc
  · intro h
    unfold anonymize_person
    rw [h]
  · intro h
    rcases hps : splitWs (pyStrip name) with _ | ⟨p, ps⟩
    · exact absurd hps h
    · have hp : p ≠ [] := splitWs_ne_nil _ p (by rw [hps]; simp)
      unfold anonymize_person
      rw [hps]
      rcases ps with _ | ⟨q, qs⟩
      · rcases p with _ | ⟨c, w⟩
        · exact absurd rfl hp
        · show c :: chars "***" = _
          simp [List.intercalate]
      · show List.intercalate (chars " ") ((p :: q :: qs).map maskNamePart) = _
        congr 1
        refine List.map_congr_left ?_
        intro a ha
        have hane : a ≠ [] := splitWs_ne_nil _ a (by rw [hps]; exact ha)
        rcases a with _ | ⟨c, w⟩
        · exact absurd rfl hane
        · rfl

/-- C10 witness: the two-part name "John Smith". -/
theorem C10_person_anonymization_witness :
    splitWs (pyStrip (chars "John Smith")) ≠ [] ∧
      anonymize_person (chars "John Smith") =
        List.intercalate (chars " ")
          ((splitWs (pyStrip (chars "John Smith"))).map fun p =>
            p.headD '*' :: chars "***") :=
  ⟨by decide, (C10_person_anonymization (chars "John Smith")).2.2 (by decide)⟩

end PiiScanner
